import Mathlib

/-!
Verification of the chart-configuration pipeline of a graph-visualization
application: chart-type inference and configuration normalization
(`parseConfig`), reference-value resolution (`referenceConfig`),
brush/range handling (`brushConfig`) and cross-chart synchronization
(`syncConfig`).

The TypeScript sources are embedded shallowly: records become association
lists of string keys to JavaScript-style values, JavaScript numbers become
rationals (the numeric computations involved stay exact in the relevant
ranges), `undefined` becomes `Option.none`, and thrown errors become
`Except.error`.  String-to-number coercions (`Number(...)`, `parseFloat`)
are modelled for decimal literals, which covers every numeric string the
properties below quantify over or evaluate at.
-/

namespace ChartViz

/-! ## JavaScript value model -/

/-- A JavaScript data value as it occurs in chart datasets: a number or a
string.  (`NaN` never occurs as a stored rational; a value whose numeric
coercion fails is represented by the coercion returning `none`.) -/
inductive Value where
  | num (q : ℚ)
  | str (s : String)
deriving DecidableEq

/-- A data record: an object, i.e. an ordered association of field names to
values (insertion order is significant, matching JS object key order). -/
abbrev Record := List (String × Value)

/-- `item[key]`: `none` models the JS `undefined` of a missing property. -/
def lookupField (item : Record) (key : String) : Option Value :=
  match item with
  | [] => none
  | (k, v) :: rest => if k = key then some v else lookupField rest key

/-- `key in item`. -/
def hasKey (item : Record) (key : String) : Bool :=
  (lookupField item key).isSome

/-! ## JavaScript numeric string coercion (decimal literals) -/

def isDigitCh (c : Char) : Bool := '0' ≤ c && c ≤ '9'

def isSpaceCh (c : Char) : Bool := c = ' ' || c = '\t' || c = '\n' || c = '\r'

def digitVal (c : Char) : ℕ := c.toNat - '0'.toNat

def natOfDigits (l : List Char) : ℕ :=
  l.foldl (fun acc c => 10 * acc + digitVal c) 0

def fracOfDigits (l : List Char) : ℚ :=
  (natOfDigits l : ℚ) / (10 : ℚ) ^ l.length

/-- An unsigned decimal literal `digits [. digits]` that must consume the
whole input (`Number` semantics). -/
def parseDecExact (l : List Char) : Option ℚ :=
  let d1 := l.takeWhile isDigitCh
  match l.dropWhile isDigitCh with
  | [] => if d1.isEmpty then none else some (natOfDigits d1)
  | '.' :: r2 =>
    let d2 := r2.takeWhile isDigitCh
    if (r2.dropWhile isDigitCh).isEmpty && !(d1.isEmpty && d2.isEmpty) then
      some ((natOfDigits d1 : ℚ) + fracOfDigits d2)
    else none
  | _ => none

/-- `Number(s)` for a string `s`: whitespace-only strings coerce to `0`,
otherwise the whole (trimmed) string must be a signed decimal literal;
`none` models `NaN`. -/
def jsNumberChars (l : List Char) : Option ℚ :=
  let t := ((l.dropWhile isSpaceCh).reverse.dropWhile isSpaceCh).reverse
  match t with
  | [] => some 0
  | '-' :: rest => (parseDecExact rest).map (fun q => -q)
  | '+' :: rest => parseDecExact rest
  | _ => parseDecExact t

def jsNumber (s : String) : Option ℚ := jsNumberChars s.toList

/-- An unsigned decimal literal read greedily from the front of the input,
trailing garbage ignored (`parseFloat` semantics). -/
def parseDecGreedy (l : List Char) : Option ℚ :=
  let d1 := l.takeWhile isDigitCh
  match l.dropWhile isDigitCh with
  | '.' :: r2 =>
    let d2 := r2.takeWhile isDigitCh
    if d1.isEmpty && d2.isEmpty then none
    else some ((natOfDigits d1 : ℚ) + fracOfDigits d2)
  | _ => if d1.isEmpty then none else some (natOfDigits d1)

/-- `parseFloat(s)`: skips leading whitespace, reads an optional sign and a
greedy decimal literal; `none` models `NaN`. -/
def jsParseFloatChars (l : List Char) : Option ℚ :=
  match l.dropWhile isSpaceCh with
  | '-' :: rest => (parseDecGreedy rest).map (fun q => -q)
  | '+' :: rest => parseDecGreedy rest
  | t => parseDecGreedy t

def jsParseFloat (s : String) : Option ℚ := jsParseFloatChars s.toList

/-- `Number(v)` on a stored value. -/
def jsNumberOfValue (v : Value) : Option ℚ :=
  match v with
  | .num q => some q
  | .str s => jsNumber s

/-- `Number(item[key])`; a missing key gives `Number(undefined) = NaN`. -/
def jsNumberOfField (item : Record) (key : String) : Option ℚ :=
  match lookupField item key with
  | some v => jsNumberOfValue v
  | none => none

/-- `typeof val === "number" || !isNaN(Number(val))` for `val = item[key]`. -/
def isNumericField (item : Record) (key : String) : Bool :=
  (jsNumberOfField item key).isSome

/-! ## referenceConfig.ts: statistic engine -/

/-- `extractNumericValues` for a single record (`src/utils/referenceConfig.ts`):
with a `dataKey`, the value at that key is coerced with
`parseFloat(String(value))` when it is not already a number; without a
`dataKey`, only true number-typed values are kept (strings are skipped by
the `typeof value !== "string"` test). -/
def itemNumericValues (dataKey : Option String) (item : Record) : List ℚ :=
  match dataKey with
  | some k =>
    match lookupField item k with
    | some (.num q) => [q]
    | some (.str s) =>
      match jsParseFloat s with
      | some q => [q]
      | none => []
    | none => []
  | none =>
    item.foldr (fun kv acc =>
      match kv.2 with
      | .num q => q :: acc
      | .str _ => acc) []

/-- `extractNumericValues(data, dataKey?)`: numeric values in iteration
order over the records. -/
def extractNumericValues (data : List Record) (dataKey : Option String) :
    List ℚ :=
  data.foldr (fun item acc => itemNumericValues dataKey item ++ acc) []

/-- `calculateAverage`: arithmetic mean, `0` on empty input. -/
def calculateAverage (values : List ℚ) : ℚ :=
  if values = [] then 0 else values.sum / values.length

def insertSorted (q : ℚ) (l : List ℚ) : List ℚ :=
  match l with
  | [] => [q]
  | x :: rest => if q ≤ x then q :: x :: rest else x :: insertSorted q rest

/-- Ascending sort (`[...values].sort((a, b) => a - b)`). -/
def sortAsc (l : List ℚ) : List ℚ := l.foldr insertSorted []

/-- `calculateMedian`: middle element of the ascending sort (mean of the two
middle elements for even length), `0` on empty input. -/
def calculateMedian (values : List ℚ) : ℚ :=
  if values = [] then 0
  else
    let sorted := sortAsc values
    let mid := sorted.length / 2
    if sorted.length % 2 = 0 then (sorted.getD (mid - 1) 0 + sorted.getD mid 0) / 2
    else sorted.getD mid 0

/-- `Math.max(...values)`; only ever applied to non-empty lists in the
source (the empty case is guarded before every use). -/
def jsMax (l : List ℚ) : ℚ :=
  match l with
  | [] => 0
  | x :: rest => rest.foldl max x

/-- `Math.min(...values)`; same guard discipline as `jsMax`. -/
def jsMin (l : List ℚ) : ℚ :=
  match l with
  | [] => 0
  | x :: rest => rest.foldl min x

/-! ## referenceConfig.ts: reference value resolution -/

def endsPercentChars (l : List Char) : Bool :=
  match l.getLast? with
  | some '%' => true
  | _ => false

/-- Membership of the lower-cased expression in the statistic keyword set. -/
def isStatKeyword (lower : List Char) : Bool :=
  lower = "average".toList || lower = "mean".toList ||
  lower = "max".toList || lower = "maximum".toList ||
  lower = "min".toList || lower = "minimum".toList ||
  lower = "median".toList

/-- `parseReferenceValue(value, data, dataKey?)`.  Numbers are returned
unchanged; `"p%"` resolves to `max * p / 100` over the extracted numeric
values; statistic keywords dispatch to the statistic engine; any other
string falls back to `parseFloat`.  Both the percentage branch and the
keyword/bare-number branch first bail out with `undefined` when no numeric
values were extracted. -/
def parseReferenceValue (value : Option Value) (data : List Record)
    (dataKey : Option String) : Option ℚ :=
  match value with
  | none => none
  | some (.num q) => some q
  | some (.str s) =>
    let chars := s.toList
    if endsPercentChars chars then
      match jsParseFloatChars chars.dropLast with
      | none => none
      | some pct =>
        let numericValues := extractNumericValues data dataKey
        if numericValues = [] then none
        else some (jsMax numericValues * pct / 100)
    else
      let lower := chars.map Char.toLower
      let numericValues := extractNumericValues data dataKey
      if numericValues = [] then none
      else if lower = "average".toList || lower = "mean".toList then
        some (calculateAverage numericValues)
      else if lower = "max".toList || lower = "maximum".toList then
        some (jsMax numericValues)
      else if lower = "min".toList || lower = "minimum".toList then
        some (jsMin numericValues)
      else if lower = "median".toList then
        some (calculateMedian numericValues)
      else
        jsParseFloatChars chars

/-- A reference element (`types.ts`): a line or shaded area overlaid on a
chart, holding a raw value expression and optional styling. -/
inductive ElementType where
  | line
  | area
deriving DecidableEq

structure ReferenceElement where
  type : ElementType
  value : Option Value := none
  position : Option String := none
  stroke : Option String := none
  strokeDasharray : Option String := none
  fill : Option String := none
  fillOpacity : Option ℚ := none
  label : Option String := none
  labelPosition : Option String := none
deriving DecidableEq

/-- `buildReferenceElements(elements, data, dataKey?)`: maps every element
through `parseReferenceValue`, replacing its `value` with the resolved
number (or `undefined` on failure) and leaving every other field intact. -/
def buildReferenceElements (elements : Option (List ReferenceElement))
    (data : List Record) (dataKey : Option String) : List ReferenceElement :=
  match elements with
  | none => []
  | some es =>
    if es = [] then []
    else es.map (fun element =>
      { element with
        value := (parseReferenceValue element.value data dataKey).map Value.num })

/-! ## syncConfig.ts: cross-chart synchronization -/

/-- Association-list lookup with JS `Map.get` / object-property semantics. -/
def alistLookup {β : Type} (m : List (String × β)) (k : String) : Option β :=
  match m with
  | [] => none
  | (k', v) :: rest => if k' = k then some v else alistLookup rest k

/-- JS `Map.set` / object-property assignment: an existing key is updated in
place (its position is preserved), a new key is appended. -/
def alistUpsert {β : Type} (m : List (String × β)) (k : String) (v : β) :
    List (String × β) :=
  match m with
  | [] => [(k, v)]
  | (k', v') :: rest =>
    if k' = k then (k, v) :: rest else (k', v') :: alistUpsert rest k v

/-- `Object.assign(target, src)`: copies the entries of `src` onto `target`
in order. -/
def objectAssign {β : Type} (target src : List (String × β)) :
    List (String × β) :=
  src.foldl (fun m kv => alistUpsert m kv.1 kv.2) target

inductive SyncMethod where
  | index
  | value
deriving DecidableEq

structure SyncedTooltipState where
  syncId : String
  active : Bool
  index : Option Int := none
  value : Option Value := none
  data : Option Record := none
deriving DecidableEq

structure SyncedBrushState where
  syncId : String
  dataStartIndex : Int
  dataEndIndex : Int
deriving DecidableEq

/-- The global sync state: per-`syncId` tooltip and brush entries and the
registered observers (listeners are identified by an abstract id, since
only their identity and invocation matter to the properties below). -/
structure GlobalSyncState where
  tooltips : List (String × SyncedTooltipState)
  brushes : List (String × SyncedBrushState)
  listeners : List (String × List ℕ)
deriving DecidableEq

/-- `notifyListeners(state, syncId)`: the observers invoked by a mutation,
in registration order. -/
def notifyListeners (state : GlobalSyncState) (syncId : String) : List ℕ :=
  (alistLookup state.listeners syncId).getD []

/-- The partial brush payload of `handleSyncedBrush` (both fields optional,
`none` modelling an absent property). -/
structure BrushPartial where
  dataStartIndex : Option Int := none
  dataEndIndex : Option Int := none
deriving DecidableEq

/-- JS truthiness of a possibly-absent number. -/
def jsTruthyIntOpt (x : Option Int) : Bool :=
  match x with
  | none => false
  | some n => n ≠ 0

/-- `handleSyncedBrush(state, syncId, brushData)`: throws when
`dataStartIndex` is missing (the source's test is
`!dataStartIndex && dataStartIndex !== 0`, which over present/absent
integers rejects exactly the absent case) or when `dataEndIndex` is
`undefined`; otherwise stores the new brush entry and notifies the
observers registered for `syncId`.  The mutation and the notification are
modelled by returning the updated state together with the list of invoked
observers; the error branches return before either happens, as the source
throws before mutating. -/
def handleSyncedBrush (state : GlobalSyncState) (syncId : String)
    (brushData : BrushPartial) :
    Except String (GlobalSyncState × List ℕ) :=
  if !jsTruthyIntOpt brushData.dataStartIndex &&
      brushData.dataStartIndex != some 0 then
    .error "dataStartIndex is required for brush sync"
  else if brushData.dataEndIndex = none then
    .error "dataEndIndex is required for brush sync"
  else
    -- both guards above ensure the two fields are present here
    let updatedBrush : SyncedBrushState :=
      { syncId := syncId
        dataStartIndex := brushData.dataStartIndex.getD 0
        dataEndIndex := brushData.dataEndIndex.getD 0 }
    .ok ({ state with brushes := alistUpsert state.brushes syncId updatedBrush },
         notifyListeners state syncId)

/-- `findIndexByValue(data, dataKey, syncValue)`: `Array.prototype.findIndex`
over strict equality of `item[dataKey]` with the value — it yields the
index of the first match and the sentinel `-1` when nothing matches. -/
def findIndexByValue (data : List Record) (dataKey : String)
    (syncValue : Value) : Int :=
  match data.findIdx? (fun item => lookupField item dataKey = some syncValue) with
  | some i => (i : Int)
  | none => -1

/-- `findValueByIndex(data, dataKey, index)`: bounds-checked lookup,
`undefined` outside `[0, length)` (and when the record lacks the key). -/
def findValueByIndex (data : List Record) (dataKey : String) (index : Int) :
    Option Value :=
  if 0 ≤ index ∧ index < (data.length : Int) then
    lookupField (data.getD index.toNat []) dataKey
  else none

/-- `transformTooltipIndex`: index policy reuses the source index when it is
below the target length; value policy maps through
`findValueByIndex`/`findIndexByValue` (the latter returning its `-1`
sentinel when the value has no match in the target). -/
def transformTooltipIndex (sourceData targetData : List Record)
    (sourceIndex : Int) (sourceDataKey targetDataKey : String)
    (syncMethod : SyncMethod) : Option Int :=
  match syncMethod with
  | .index =>
    if sourceIndex < (targetData.length : Int) then some sourceIndex else none
  | .value =>
    match findValueByIndex sourceData sourceDataKey sourceIndex with
    | some sourceValue =>
      some (findIndexByValue targetData targetDataKey sourceValue)
    | none => none

/-- `transformBrushRange`: index policy returns the source pair unchanged
when `sourceEnd` is below the target length and otherwise clamps only the
end to `targetData.length - 1`; value policy maps both endpoints through
the value lookup (the source's `!== undefined` guards on the two
`findIndexByValue` results are vacuous, since that function always returns
a number). -/
def transformBrushRange (sourceData targetData : List Record)
    (sourceStart sourceEnd : Int) (sourceDataKey targetDataKey : String)
    (syncMethod : SyncMethod) : Option (Int × Int) :=
  match syncMethod with
  | .index =>
    if sourceEnd < (targetData.length : Int) then some (sourceStart, sourceEnd)
    else some (sourceStart, min sourceEnd ((targetData.length : Int) - 1))
  | .value =>
    match findValueByIndex sourceData sourceDataKey sourceStart,
          findValueByIndex sourceData sourceDataKey sourceEnd with
    | some startValue, some endValue =>
      some (findIndexByValue targetData targetDataKey startValue,
            findIndexByValue targetData targetDataKey endValue)
    | _, _ => none

/-! ## brushConfig.ts: brush range state machine -/

structure BrushChangeResult where
  startIndex : Int
  endIndex : Int
  range : Int
deriving DecidableEq

/-- `onBrushChange(startIndex, endIndex, dataLength)`: clamps the start to
`[0, dataLength - 1]` and the end to `[start + 1, dataLength]` (the second
clamp taking priority over the upper bound). -/
def onBrushChange (startIndex endIndex dataLength : Int) : BrushChangeResult :=
  let validatedStartIndex := max 0 (min startIndex (dataLength - 1))
  let validatedEndIndex := max (validatedStartIndex + 1) (min endIndex dataLength)
  { startIndex := validatedStartIndex
    endIndex := validatedEndIndex
    range := validatedEndIndex - validatedStartIndex }

/-- `handleBrushKeyboard(key, currentStart, currentEnd, dataLength,
stepSize)`: arrow-key transitions on the brush window, each result passed
through `onBrushChange`; `none` for any other key. -/
def handleBrushKeyboard (key : String) (currentStart currentEnd dataLength
    stepSize : Int) : Option BrushChangeResult :=
  if key = "ArrowLeft" then
    let newStart := max 0 (currentStart - stepSize)
    let newEnd := max (newStart + 1) (currentEnd - stepSize)
    some (onBrushChange newStart newEnd dataLength)
  else if key = "ArrowRight" then
    let newEnd := min dataLength (currentEnd + stepSize)
    let newStart := min (newEnd - 1) (currentStart + stepSize)
    some (onBrushChange newStart newEnd dataLength)
  else if key = "ArrowUp" then
    let newStart := max 0 (currentStart - stepSize)
    let newEnd := min dataLength (currentEnd + stepSize)
    some (onBrushChange newStart newEnd dataLength)
  else if key = "ArrowDown" then
    let newStart := min (currentEnd - 1) (currentStart + stepSize)
    let newEnd := max (newStart + 1) (currentEnd - stepSize)
    some (onBrushChange newStart newEnd dataLength)
  else none

/-! ## types.ts: configuration model -/

inductive ChartType where
  | bar
  | line
  | area
  | pie
  | composed
  | scatter
  | radar
  | funnel
  | sankey
  | treemap
deriving DecidableEq

inductive SeriesType where
  | bar
  | line
  | area
deriving DecidableEq

inductive Theme where
  | light
  | dark
deriving DecidableEq

/-- `string | string[]` as accepted for the `yAxis`/`yAxis2` fields. -/
inductive StrOrList where
  | one (s : String)
  | many (l : List String)
deriving DecidableEq

inductive YSide where
  | left
  | right
deriving DecidableEq

/-- `number | number[]` for `barRadius`. -/
inductive BarRadius where
  | single (q : ℚ)
  | multiple (l : List ℚ)
deriving DecidableEq

structure LabelConfig where
  enabled : Option Bool := none
  position : Option String := none
  offset : Option ℚ := none
  angle : Option ℚ := none
  color : Option String := none
  formatter : Option String := none
  zIndex : Option ℚ := none
  fontSize : Option ℚ := none
  fontWeight : Option String := none
deriving DecidableEq

structure TooltipConfig where
  enabled : Option Bool := none
  trigger : Option String := none
  shared : Option Bool := none
  contentType : Option String := none
  formatter : Option (List (String × String)) := none
  labelFormatter : Option String := none
  itemSorter : Option String := none
  filterNull : Option Bool := none
  position : Option String := none
  offset : Option ℚ := none
  animate : Option Bool := none
  animationDuration : Option ℚ := none
  cursorStyle : Option (List (String × String)) := none
  contentStyle : Option (List (String × String)) := none
  wrapperStyle : Option (List (String × String)) := none
  includeHidden : Option Bool := none
deriving DecidableEq

structure LegendConfig where
  enabled : Option Bool := none
  layout : Option String := none
  align : Option String := none
  verticalAlign : Option String := none
  iconType : Option String := none
  iconSize : Option ℚ := none
  inactiveColor : Option String := none
  onClick : Option String := none
  formatter : Option String := none
  wrapperStyle : Option (List (String × String)) := none
  itemStyle : Option (List (String × String)) := none
  textStyle : Option (List (String × String)) := none
deriving DecidableEq

structure BrushConfig where
  enabled : Option Bool := none
  dataStartIndex : Option Int := none
  dataEndIndex : Option Int := none
  y : Option ℚ := none
  height : Option ℚ := none
  travelAxis : Option String := none
  fill : Option String := none
  stroke : Option String := none
  fillOpacity : Option ℚ := none
  showPreview : Option Bool := none
deriving DecidableEq

structure AxisConfig where
  type : Option String := none
  dataKey : Option String := none
  label : Option String := none
  labelAngle : Option ℚ := none
  labelPosition : Option String := none
  scale : Option String := none
  hide : Option Bool := none
  stroke : Option String := none
  textStyle : Option (List (String × String)) := none
  tickCount : Option ℚ := none
  domain : Option (Value × Value) := none
deriving DecidableEq

structure AxisConfigGroup where
  x : Option AxisConfig := none
  y : Option AxisConfig := none
  y2 : Option AxisConfig := none
deriving DecidableEq

structure Margin where
  top : Option ℚ := none
  right : Option ℚ := none
  bottom : Option ℚ := none
  left : Option ℚ := none
deriving DecidableEq

structure ChartStyling where
  margin : Option Margin := none
  padding : Option ℚ := none
  backgroundColor : Option String := none
  borderRadius : Option ℚ := none
  borderColor : Option String := none
  borderWidth : Option ℚ := none
deriving DecidableEq

/-- `unknown[] | { datasetId: string }`: the raw data slot of a chart
configuration (inline data items are records, matching the
"Data items must be objects" requirement of the normalizer). -/
inductive ChartData where
  | inline (items : List Record)
  | datasetId (id : String)
deriving DecidableEq

/-- The raw (sparse) chart configuration of `types.ts`. -/
structure ChartConfig where
  chartType : Option ChartType := none
  title : Option String := none
  subtitle : Option String := none
  data : ChartData
  xAxis : Option String := none
  yAxis : Option StrOrList := none
  yAxis2 : Option StrOrList := none
  series : Option (List String) := none
  seriesConfig : Option (List (String × SeriesType)) := none
  layout : Option String := none
  width : Option Value := none
  height : Option Value := none
  responsive : Option Bool := none
  barSize : Option Value := none
  barGap : Option Value := none
  barCategoryGap : Option Value := none
  maxBarSize : Option ℚ := none
  barRadius : Option BarRadius := none
  stackOffset : Option String := none
  reverseStackOrder : Option Bool := none
  baseValue : Option Value := none
  curveType : Option String := none
  strokeWidth : Option ℚ := none
  fillOpacity : Option ℚ := none
  dotSize : Option ℚ := none
  dotColor : Option String := none
  animationDuration : Option ℚ := none
  animationEasing : Option String := none
  label : Option LabelConfig := none
  tooltip : Option TooltipConfig := none
  legend : Option LegendConfig := none
  brush : Option BrushConfig := none
  referenceElements : Option (List ReferenceElement) := none
  axisConfig : Option AxisConfigGroup := none
  clickable : Option Bool := none
  syncId : Option String := none
  syncMethod : Option SyncMethod := none
  theme : Option Theme := none
  styling : Option ChartStyling := none
  palette : Option (List String) := none
  cx : Option Value := none
  cy : Option Value := none
  innerRadius : Option ℚ := none
  outerRadius : Option ℚ := none
  startAngle : Option ℚ := none
  endAngle : Option ℚ := none
  bubbleSize : Option Value := none
  bubbleColor : Option String := none
deriving DecidableEq

/-- The canonical (fully-resolved) configuration of `types.ts`. -/
structure ParsedChartConfig where
  chartType : ChartType
  title : String
  subtitle : Option String := none
  data : List Record
  xAxis : String
  series : List String
  seriesConfig : List (String × SeriesType)
  theme : Theme
  layout : Option String := none
  barSize : Option Value := none
  barGap : Option Value := none
  barCategoryGap : Option Value := none
  maxBarSize : Option ℚ := none
  barRadius : Option BarRadius := none
  stackOffset : Option String := none
  reverseStackOrder : Option Bool := none
  baseValue : Option Value := none
  curveType : Option String := none
  strokeWidth : Option ℚ := none
  fillOpacity : Option ℚ := none
  dotSize : Option ℚ := none
  dotColor : Option String := none
  animationDuration : Option ℚ := none
  animationEasing : Option String := none
  label : Option LabelConfig := none
  tooltip : Option TooltipConfig := none
  legend : Option LegendConfig := none
  brush : Option BrushConfig := none
  referenceElements : Option (List ReferenceElement) := none
  axisConfig : Option AxisConfigGroup := none
  seriesYAxisMap : Option (List (String × YSide)) := none
  yAxis : Option StrOrList := none
  yAxis2 : Option StrOrList := none
  syncId : Option String := none
  styling : Option ChartStyling := none
  palette : Option (List String) := none
  cx : Option Value := none
  cy : Option Value := none
  innerRadius : Option ℚ := none
  outerRadius : Option ℚ := none
  startAngle : Option ℚ := none
  endAngle : Option ℚ := none
deriving DecidableEq

/-! ## parseConfig.ts: chart type inference -/

/-- Value of the single funnel series for one record:
`Number(item[key]) || 0` (`NaN` coerces to `0`; `0` stays `0`). -/
def numOrZero (item : Record) (key : String) : ℚ :=
  (jsNumberOfField item key).getD 0

/-- The funnel candidate values: the per-record series values restricted to
the strictly positive ones (`.filter((v) => v > 0)`). -/
def funnelValues (data : List Record) (key : String) : List ℚ :=
  (data.map (fun item => numOrZero item key)).filter (fun v => decide (0 < v))

/-- The number of consecutive pairs `(values[i-1], values[i])` with
`values[i] <= values[i-1]`. -/
def decreasingCount (values : List ℚ) : ℕ :=
  (values.zip values.tail).countP (fun p => decide (p.2 ≤ p.1))

/-- Every record has `source`, `target` and `value` fields (Sankey). -/
def isSankeyData (data : List Record) : Bool :=
  data.all (fun item => hasKey item "source" && hasKey item "target" &&
    hasKey item "value")

/-- The first record has `children` and `name` fields (hierarchical
treemap); `false` on empty data (`firstItem` is `undefined`). -/
def isHierTreemap (data : List Record) : Bool :=
  match data.head? with
  | some item => hasKey item "children" && hasKey item "name"
  | none => false

/-- Every record has `name` and a number-typed `value` (name/value
treemap). -/
def isNameValueTreemap (data : List Record) : Bool :=
  data.all (fun item => hasKey item "name" &&
    match lookupField item "value" with
    | some (.num _) => true
    | _ => false)

/-- Exactly two series, at least three records, both series numeric in every
record (scatter). -/
def scatterCheck (data : List Record) (series : List String) : Bool :=
  decide (series.length = 2 ∧ 3 ≤ data.length ∧
    ∀ item ∈ data, isNumericField item (series.getD 0 "") ∧
      isNumericField item (series.getD 1 ""))

/-- Three or more series, all numeric in every record, at least three
records (radar). -/
def radarCheck (data : List Record) (series : List String) : Bool :=
  decide (3 ≤ series.length ∧
    (∀ item ∈ data, ∀ s ∈ series, isNumericField item s) ∧ 3 ≤ data.length)

/-- The funnel branch: a single series, 2 to 15 records, and
`decreasingCount >= values.length * 0.6` over the positive values.  The
source computes the threshold in floating point; for the lengths this
branch admits (at most 15 values) the double `values.length * 0.6` and the
rational `values.length * (3 / 5)` induce the same comparisons against an
integer count, so the rational model is exact. -/
def funnelCheck (data : List Record) (series : List String) : Bool :=
  decide (series.length = 1 ∧ 2 ≤ data.length ∧ data.length ≤ 15 ∧
    ((funnelValues data (series.getD 0 "")).length : ℚ) * (3 / 5) ≤
      (decreasingCount (funnelValues data (series.getD 0 "")) : ℚ))

/-- A single series with 3 to 20 records (pie). -/
def pieCheck (data : List Record) (series : List String) : Bool :=
  decide (series.length = 1 ∧ 3 ≤ data.length ∧ data.length ≤ 20)

/-- `inferChartType(data, series)`: the decision chain of
`parseConfig.ts`. -/
def inferChartType (data : List Record) (series : List String) : ChartType :=
  if isSankeyData data then .sankey
  else if isHierTreemap data then .treemap
  else if isNameValueTreemap data then .treemap
  else if scatterCheck data series then .scatter
  else if radarCheck data series then .radar
  else if funnelCheck data series then .funnel
  else if pieCheck data series then .pie
  else if 2 ≤ series.length then .composed
  else .bar

/-! ## parseConfig.ts: configuration normalization -/

/-- The `"sales-2024"` entry of the mock dataset database. -/
def salesDataset : List Record :=
  [[("month", .str "Jan"), ("sales", .num 4000), ("revenue", .num 2400), ("profit", .num 2400)],
   [("month", .str "Feb"), ("sales", .num 3000), ("revenue", .num 1398), ("profit", .num 2210)],
   [("month", .str "Mar"), ("sales", .num 2000), ("revenue", .num 9800), ("profit", .num 2290)],
   [("month", .str "Apr"), ("sales", .num 2780), ("revenue", .num 3908), ("profit", .num 2000)],
   [("month", .str "May"), ("sales", .num 1890), ("revenue", .num 4800), ("profit", .num 2181)],
   [("month", .str "Jun"), ("sales", .num 2390), ("revenue", .num 3800), ("profit", .num 2500)]]

def mockDatabase (id : String) : Option (List Record) :=
  if id = "sales-2024" then some salesDataset else none

/-- Resolution of the raw data slot: an inline array is used as-is, a
dataset id is looked up in the mock database, a missing id is a fatal
error. -/
def getConfigData (config : ChartConfig) : Except String (List Record) :=
  match config.data with
  | .inline items => .ok items
  | .datasetId id =>
    match mockDatabase id with
    | some dataset => .ok dataset
    | none => .error ("Dataset with ID " ++ id ++ " not found")

/-- JS truthiness of the `yAxis`/`yAxis2` slots: absent and the empty string
are falsy, arrays (even empty ones) are truthy. -/
def jsTruthyStrOrList (x : Option StrOrList) : Bool :=
  match x with
  | none => false
  | some (.one s) => s ≠ ""
  | some (.many _) => true

/-- `Array.isArray(x) ? x : [x]` for an axis field list. -/
def axisFieldList (x : Option StrOrList) : List String :=
  match x with
  | some (.one s) => [s]
  | some (.many l) => l
  | none => []

/-- The dual-axis map: left-axis series first, then right-axis series (a
series named on both sides ends up `right`), both restricted to the
selected series list.  Each `forEach` body runs only when the
corresponding config slot is truthy. -/
def buildSeriesYAxisMap (yAxis yAxis2 : Option StrOrList)
    (series : List String) : List (String × YSide) :=
  let withLeft :=
    if jsTruthyStrOrList yAxis then
      (axisFieldList yAxis).foldl
        (fun m s => if series.contains s then alistUpsert m s YSide.left else m) []
    else []
  if jsTruthyStrOrList yAxis2 then
    (axisFieldList yAxis2).foldl
      (fun m s => if series.contains s then alistUpsert m s YSide.right else m)
      withLeft
  else withLeft

/-- One iteration of the composed-chart default loop: a series not already
assigned a type gets `"bar"` when it is the first selected series
(`series.indexOf(s) === 0` holds exactly when `s` equals the head of the
series list) and `"line"` otherwise. -/
def fillStep (series : List String) (m : List (String × SeriesType))
    (s : String) : List (String × SeriesType) :=
  if (alistLookup m s).isSome then m
  else alistUpsert m s
    (if series.head? = some s then SeriesType.bar else SeriesType.line)

/-- For a composed chart, fill the per-series type map with defaults for
every selected series not already assigned. -/
def fillComposedDefaults (series : List String)
    (sc : List (String × SeriesType)) : List (String × SeriesType) :=
  series.foldl (fillStep series) sc

/-- Pairwise-distinct keys of an association list (the invariant of every
map the normalizer builds, mirroring genuine JS objects). -/
def NodupKeys {β : Type} (m : List (String × β)) : Prop :=
  (m.map Prod.fst).Nodup

/-- `Object.keys(sampleItem)` for `sampleItem = data[0]`. -/
def availableKeysOf (data : List Record) : List String :=
  (data.headD []).map Prod.fst

/-- X-axis selection: the declared column, else the first key of the first
record (`config.xAxis ?? availableKeys[0]`). -/
def selectXAxis (config : ChartConfig) (availableKeys : List String) : String :=
  config.xAxis.getD (availableKeys.headD "")

/-- Series selection: the declared list (`config.series || []`; an empty
array is truthy but also has length 0), else every non-x-axis key that is
numeric-coercible in at least one record. -/
def selectSeries (config : ChartConfig) (data : List Record)
    (availableKeys : List String) (xAxis : String) : List String :=
  let declaredSeries := config.series.getD []
  if declaredSeries.length = 0 then
    availableKeys.filter
      (fun key => key != xAxis && data.any (fun item => isNumericField item key))
  else declaredSeries

/-- `config.chartType || inferChartType(data, series)` (chart type enum
strings are never falsy, so a declared kind always wins). -/
def resolveChartType (config : ChartConfig) (data : List Record)
    (series : List String) : ChartType :=
  match config.chartType with
  | some ct => ct
  | none => inferChartType data series

/-- The per-series map seeded from the raw config:
`Object.assign({}, config.seriesConfig)` when present (`if
(config.seriesConfig)`: any present object, even an empty one, is truthy),
the empty map otherwise. -/
def seedSeriesConfig (config : ChartConfig) : List (String × SeriesType) :=
  match config.seriesConfig with
  | some sc => objectAssign [] sc
  | none => []

/-- The final per-series type map: composed charts get defaults filled in
for unassigned series, every other kind keeps the user-seeded map as-is. -/
def resolveSeriesConfig (config : ChartConfig) (series : List String)
    (chartType : ChartType) : List (String × SeriesType) :=
  if chartType = ChartType.composed then
    fillComposedDefaults series (seedSeriesConfig config)
  else seedSeriesConfig config

/-- The dual-axis map slot: built exactly when `config.yAxis ||
config.yAxis2` is truthy, absent otherwise. -/
def resolveSeriesYAxisMap (yAxis yAxis2 : Option StrOrList)
    (series : List String) : Option (List (String × YSide)) :=
  if jsTruthyStrOrList yAxis || jsTruthyStrOrList yAxis2 then
    some (buildSeriesYAxisMap yAxis yAxis2 series)
  else none

/-- `parseConfig(config)`: the configuration normalizer.  Resolves the data
slot, validates it, selects the x-axis and the series, infers the chart
type when undeclared, seeds and default-fills the per-series type map,
then assembles the canonical configuration, passing optional fields
through unchanged. -/
def parseConfig (config : ChartConfig) : Except String ParsedChartConfig :=
  match getConfigData config with
  | .error e => .error e
  | .ok data =>
  if data.length = 0 then .error "Data must be a non-empty array"
  else if (availableKeysOf data).length = 0 then
    .error "Data items must have at least one property"
  else if ¬ (availableKeysOf data).contains
      (selectXAxis config (availableKeysOf data)) then
    .error ("X-axis column " ++ selectXAxis config (availableKeysOf data) ++
      " not found in data")
  else if (selectSeries config data (availableKeysOf data)
      (selectXAxis config (availableKeysOf data))).length = 0 then
    .error "No numeric columns found for visualization. Provide series in config."
  else
  .ok
    { chartType :=
        resolveChartType config data
          (selectSeries config data (availableKeysOf data)
            (selectXAxis config (availableKeysOf data)))
      title := config.title.getD "Data Visualization"
      subtitle := config.subtitle
      data := data
      xAxis := selectXAxis config (availableKeysOf data)
      series :=
        selectSeries config data (availableKeysOf data)
          (selectXAxis config (availableKeysOf data))
      seriesConfig :=
        resolveSeriesConfig config
          (selectSeries config data (availableKeysOf data)
            (selectXAxis config (availableKeysOf data)))
          (resolveChartType config data
            (selectSeries config data (availableKeysOf data)
              (selectXAxis config (availableKeysOf data))))
      theme := config.theme.getD Theme.light
      layout := config.layout
      barSize := config.barSize
      barGap := config.barGap
      barCategoryGap := config.barCategoryGap
      maxBarSize := config.maxBarSize
      barRadius := config.barRadius
      stackOffset := config.stackOffset
      reverseStackOrder := config.reverseStackOrder
      baseValue := config.baseValue
      curveType := config.curveType
      strokeWidth := config.strokeWidth
      fillOpacity := config.fillOpacity
      dotSize := config.dotSize
      dotColor := config.dotColor
      animationDuration := config.animationDuration
      animationEasing := config.animationEasing
      label := config.label
      tooltip := config.tooltip
      legend := config.legend
      brush := config.brush
      referenceElements := config.referenceElements
      axisConfig := config.axisConfig
      seriesYAxisMap :=
        resolveSeriesYAxisMap config.yAxis config.yAxis2
          (selectSeries config data (availableKeysOf data)
            (selectXAxis config (availableKeysOf data)))
      yAxis := config.yAxis
      yAxis2 := config.yAxis2
      syncId := config.syncId
      styling := config.styling
      palette := config.palette
      cx := config.cx
      cy := config.cy
      innerRadius := config.innerRadius
      outerRadius := config.outerRadius
      startAngle := config.startAngle
      endAngle := config.endAngle }

/-- Re-reading a canonical configuration as raw input: every field the
canonical shape carries is fed back into the corresponding raw slot;
raw-only fields (width, height, responsive, clickable, syncMethod, bubble
options) stay absent, as the normalizer does not emit them. -/
def toRawConfig (p : ParsedChartConfig) : ChartConfig :=
  { chartType := some p.chartType
    title := some p.title
    subtitle := p.subtitle
    data := ChartData.inline p.data
    xAxis := some p.xAxis
    yAxis := p.yAxis
    yAxis2 := p.yAxis2
    series := some p.series
    seriesConfig := some p.seriesConfig
    layout := p.layout
    barSize := p.barSize
    barGap := p.barGap
    barCategoryGap := p.barCategoryGap
    maxBarSize := p.maxBarSize
    barRadius := p.barRadius
    stackOffset := p.stackOffset
    reverseStackOrder := p.reverseStackOrder
    baseValue := p.baseValue
    curveType := p.curveType
    strokeWidth := p.strokeWidth
    fillOpacity := p.fillOpacity
    dotSize := p.dotSize
    dotColor := p.dotColor
    animationDuration := p.animationDuration
    animationEasing := p.animationEasing
    label := p.label
    tooltip := p.tooltip
    legend := p.legend
    brush := p.brush
    referenceElements := p.referenceElements
    axisConfig := p.axisConfig
    syncId := p.syncId
    theme := some p.theme
    styling := p.styling
    palette := p.palette
    cx := p.cx
    cy := p.cy
    innerRadius := p.innerRadius
    outerRadius := p.outerRadius
    startAngle := p.startAngle
    endAngle := p.endAngle }

/-! ## Concrete datasets and configurations used by the theorems below -/

/-- Two-record strictly decreasing single-series dataset. -/
def funnelShortData : List Record := [[("v", .num 10)], [("v", .num 5)]]

/-- Three-record strictly decreasing single-series dataset. -/
def funnelDemoData : List Record :=
  [[("v", .num 10)], [("v", .num 9)], [("v", .num 8)]]

/-- A dataset contributing exactly one numeric value. -/
def c2Data : List Record := [[("a", .num 1)]]

def c3SourceData : List Record := [[("month", .str "Jan")]]

def c3TargetData : List Record := [[("period", .str "Feb")]]

def c8TargetData : List Record :=
  [[("period", .str "Jan")], [("period", .str "Feb")], [("period", .str "Mar")]]

/-- A minimal raw line-chart configuration. -/
def c5Config : ChartConfig :=
  { data := .inline [[("x", .str "a"), ("a", .num 1)]]
    chartType := some ChartType.line
    series := some ["a"] }

/-- The canonical configuration `c5Config` normalizes to. -/
def c5Parsed : ParsedChartConfig :=
  { chartType := ChartType.line
    title := "Data Visualization"
    data := [[("x", .str "a"), ("a", .num 1)]]
    xAxis := "x"
    series := ["a"]
    seriesConfig := []
    theme := Theme.light }

/-- A raw bar-chart configuration that also declares a per-series map. -/
def c6Config : ChartConfig :=
  { data := .inline [[("x", .str "a"), ("sales", .num 1)]]
    chartType := some ChartType.bar
    series := some ["sales"]
    seriesConfig := some [("sales", SeriesType.line)] }

/-- A raw composed-chart configuration with no per-series map. -/
def c6DemoConfig : ChartConfig :=
  { data := .inline [[("x", .str "a"), ("a", .num 1), ("b", .num 2)]]
    chartType := some ChartType.composed
    series := some ["a", "b"] }

/-- The canonical configuration `c6DemoConfig` normalizes to. -/
def c6DemoParsed : ParsedChartConfig :=
  { chartType := ChartType.composed
    title := "Data Visualization"
    data := [[("x", .str "a"), ("a", .num 1), ("b", .num 2)]]
    xAxis := "x"
    series := ["a", "b"]
    seriesConfig := [("a", SeriesType.bar), ("b", SeriesType.line)]
    theme := Theme.light }

/-! ## Helper lemmas -/

/-- The source's presence test `!dataStartIndex && dataStartIndex !== 0`
rejects exactly the absent value. -/
theorem startGuard_eq_isNone (x : Option Int) :
    (!jsTruthyIntOpt x && x != some 0) = x.isNone := by
  rcases x with _ | n
  · rfl
  · by_cases hn : n = 0 <;> simp [jsTruthyIntOpt, hn]

/-! ## C4: onBrushChange always yields a non-empty in-bounds range -/

/-- C4: for every `dataLength ≥ 1` and arbitrary integer inputs (inverted,
negative, or out-of-range), `onBrushChange` returns a range with
`0 ≤ startIndex ≤ dataLength - 1` and `startIndex < endIndex ≤ dataLength`. -/
theorem onBrushChange_valid_range (startIndex endIndex dataLength : Int)
    (h : 1 ≤ dataLength) :
    0 ≤ (onBrushChange startIndex endIndex dataLength).startIndex ∧
    (onBrushChange startIndex endIndex dataLength).startIndex ≤ dataLength - 1 ∧
    (onBrushChange startIndex endIndex dataLength).startIndex <
      (onBrushChange startIndex endIndex dataLength).endIndex ∧
    (onBrushChange startIndex endIndex dataLength).endIndex ≤ dataLength := by
  unfold onBrushChange
  dsimp only
  omega

/-- Witness for `onBrushChange_valid_range` at the adversarial input
`start = -5`, `end = 99`, `dataLength = 10`. -/
theorem onBrushChange_valid_range_witness :
    (1 : Int) ≤ 10 ∧
    (0 ≤ (onBrushChange (-5) 99 10).startIndex ∧
     (onBrushChange (-5) 99 10).startIndex ≤ 10 - 1 ∧
     (onBrushChange (-5) 99 10).startIndex < (onBrushChange (-5) 99 10).endIndex ∧
     (onBrushChange (-5) 99 10).endIndex ≤ 10) :=
  ⟨by decide, onBrushChange_valid_range (-5) 99 10 (by decide)⟩

/-! ## C7: keyboard translation of the brush window -/

/-- C7 counterexample: a window `[0, 5)` flush against the left bound, moved
left by step 2 in a dataset of length 10, contracts to `[0, 3)` — its width
drops from 5 to 3 even though the width-preserving translation (staying
put) is within bounds, contradicting the claim that width is preserved
whenever a width-preserving translation exists. -/
theorem handleBrushKeyboard_flush_left_counterexample :
    handleBrushKeyboard "ArrowLeft" 0 5 10 2 =
      some { startIndex := 0, endIndex := 3, range := 3 } ∧
    ¬ ((3 : Int) - 0 = 5 - 0) := by decide

/-- C7 amended: ArrowLeft/ArrowRight translate the whole window by the step
size and preserve its width whenever the full translation stays within the
data bounds (left: `stepSize ≤ start`; right: `end + stepSize ≤
dataLength`); when the move is clamped at a bound the far edge still moves,
so the window contracts instead. -/
theorem handleBrushKeyboard_translation (currentStart currentEnd dataLength
    stepSize : Int) (hn : 0 ≤ stepSize) (h0 : 0 ≤ currentStart)
    (hlt : currentStart < currentEnd) (hle : currentEnd ≤ dataLength) :
    (stepSize ≤ currentStart →
      handleBrushKeyboard "ArrowLeft" currentStart currentEnd dataLength
          stepSize =
        some { startIndex := currentStart - stepSize
               endIndex := currentEnd - stepSize
               range := currentEnd - currentStart }) ∧
    (currentEnd + stepSize ≤ dataLength →
      handleBrushKeyboard "ArrowRight" currentStart currentEnd dataLength
          stepSize =
        some { startIndex := currentStart + stepSize
               endIndex := currentEnd + stepSize
               range := currentEnd - currentStart }) := by
  constructor <;> intro hstep <;>
    simp only [handleBrushKeyboard, onBrushChange, reduceIte,
      Option.some.injEq, BrushChangeResult.mk.injEq, String.reduceEq] <;>
    refine ⟨?_, ?_, ?_⟩ <;> omega

/-- Witness for `handleBrushKeyboard_translation`: the window `[2, 4)` in a
dataset of length 10 translates by 1 in both directions with width 2
preserved. -/
theorem handleBrushKeyboard_translation_witness :
    ((0 : Int) ≤ 1 ∧ (0 : Int) ≤ 2 ∧ (2 : Int) < 4 ∧ (4 : Int) ≤ 10) ∧
    ((1 : Int) ≤ 2 →
      handleBrushKeyboard "ArrowLeft" 2 4 10 1 =
        some { startIndex := 1, endIndex := 3, range := 2 }) ∧
    ((4 : Int) + 1 ≤ 10 →
      handleBrushKeyboard "ArrowRight" 2 4 10 1 =
        some { startIndex := 3, endIndex := 5, range := 2 }) :=
  ⟨⟨by decide, by decide, by decide, by decide⟩,
   (handleBrushKeyboard_translation 2 4 10 1 (by decide) (by decide)
     (by decide) (by decide)).1,
   (handleBrushKeyboard_translation 2 4 10 1 (by decide) (by decide)
     (by decide) (by decide)).2⟩

/-! ## C8: brush range transform under the index policy -/

/-- C8 counterexample: under the index policy with source range `(5, 1)` and
a target of length 3, `transformBrushRange` returns `(5, 1)` unchanged — an
inverted range whose start exceeds the target length, where the claim
allows only `undefined` or a range with `0 ≤ start ≤ end ≤ length`. -/
theorem transformBrushRange_inverted_counterexample :
    transformBrushRange [] c8TargetData 5 1 "month" "period" .index =
      some (5, 1) ∧
    ¬ ((5 : Int) ≤ 1 ∧ (1 : Int) ≤ (c8TargetData.length : Int)) := by decide

/-- C8 amended: under the index policy `transformBrushRange` never returns
`undefined`; it reuses the source pair unchanged when the source end is
below the target length, and otherwise clamps only the end index to
`targetLength - 1` — the start index is passed through unvalidated, so the
result can be inverted or out of bounds whenever the source start is. -/
theorem transformBrushRange_index_policy (sourceData targetData : List Record)
    (sourceStart sourceEnd : Int) (sourceDataKey targetDataKey : String) :
    transformBrushRange sourceData targetData sourceStart sourceEnd
      sourceDataKey targetDataKey .index =
    some (sourceStart,
      if sourceEnd < (targetData.length : Int) then sourceEnd
      else (targetData.length : Int) - 1) := by
  unfold transformBrushRange
  split_ifs with h
  · rfl
  · simp only [Option.some.injEq, Prod.mk.injEq, true_and]
    omega

/-! ## C10: brush sync mutation requires both bounds -/

/-- C10: `handleSyncedBrush` throws exactly when `dataStartIndex` is absent
(a present `0` passes the quirky `!x && x !== 0` test) or `dataEndIndex` is
absent; in either error case it returns before storing a brush entry or
notifying any observer, and on success it stores exactly the supplied pair
and notifies the observers registered for the key. -/
theorem handleSyncedBrush_spec (state : GlobalSyncState) (syncId : String)
    (brushData : BrushPartial) :
    handleSyncedBrush state syncId brushData =
      match brushData.dataStartIndex, brushData.dataEndIndex with
      | none, _ => .error "dataStartIndex is required for brush sync"
      | some _, none => .error "dataEndIndex is required for brush sync"
      | some s, some e =>
        .ok ({ state with
                brushes := alistUpsert state.brushes syncId
                  { syncId := syncId, dataStartIndex := s, dataEndIndex := e } },
             notifyListeners state syncId) := by
  unfold handleSyncedBrush
  rw [startGuard_eq_isNone]
  rcases hbs : brushData.dataStartIndex with _ | s <;>
    rcases hbe : brushData.dataEndIndex with _ | e <;>
    simp [hbs, hbe]

/-! ## C3: findIndexByValue returns the -1 sentinel, not undefined -/

/-- C3: `findIndexByValue` is a linear scan returning the first matching
index, but for a value with no match it returns the `Array.findIndex`
sentinel `-1` rather than `undefined`; consequently the value-policy
tooltip transform returns `-1` (wrapped in a present result) instead of
`undefined` when the source value has no match in the target dataset. -/
theorem findIndexByValue_sentinel_eval :
    findIndexByValue c3SourceData "month" (.str "Jan") = 0 ∧
    findIndexByValue c3SourceData "month" (.str "May") = -1 ∧
    transformTooltipIndex c3SourceData c3TargetData 0 "month" "period"
      .value = some (-1) := by decide

/-! ## C9: batch resolution of reference elements is element-wise -/

/-- C9: `buildReferenceElements` preserves the number and order of the raw
elements and rewrites each one independently: position `i` of the output is
exactly element `i` of the input with only its `value` replaced by the
resolved value (absent when resolution fails), all other fields unchanged —
so one failing element affects nothing else and the batch never fails. -/
theorem buildReferenceElements_pointwise (elements : List ReferenceElement)
    (data : List Record) (dataKey : Option String) :
    (buildReferenceElements (some elements) data dataKey).length =
      elements.length ∧
    ∀ i : ℕ, (buildReferenceElements (some elements) data dataKey)[i]? =
      (elements[i]?).map (fun element =>
        { element with
          value := (parseReferenceValue element.value data dataKey).map
            Value.num }) := by
  unfold buildReferenceElements
  dsimp only
  split_ifs with h
  · subst h
    simp
  · constructor
    · exact List.length_map _ _
    · intro i
      exact List.getElem?_map ..

/-! ## C1: funnel inference -/

/-- The rational funnel threshold as an integer comparison. -/
theorem ratio_le_iff (a b : ℕ) : ((a : ℚ) * (3 / 5) ≤ (b : ℚ)) ↔ 3 * a ≤ 5 * b := by
  constructor
  · intro h
    have h' : (3 * a : ℚ) ≤ 5 * b := by linarith
    exact_mod_cast h'
  · intro h
    have h' : (3 * a : ℚ) ≤ 5 * b := by exact_mod_cast h
    linarith

/-- `funnelCheck` restated without rational arithmetic (needed to evaluate
the inferencer on concrete data, since the rational product does not reduce
definitionally). -/
theorem funnelCheck_eq (data : List Record) (series : List String) :
    funnelCheck data series =
      decide (series.length = 1 ∧ 2 ≤ data.length ∧ data.length ≤ 15 ∧
        3 * (funnelValues data (series.getD 0 "")).length ≤
          5 * decreasingCount (funnelValues data (series.getD 0 ""))) := by
  unfold funnelCheck
  rw [decide_eq_decide]
  simp only [ratio_le_iff]

/-- C1 counterexample: the dataset `[{v:10},{v:5}]` with the single series
`"v"` has 2 records (within 2–15), positive values, and its one consecutive
pair is non-increasing (100% ≥ 60%), yet the inferencer returns the bar
kind: the source compares the count of non-increasing pairs against 60% of
the number of *values* (here `2 * 0.6 = 1.2 > 1`), not of the number of
pairs as claimed. -/
theorem inferChartType_pairs_counterexample :
    inferChartType funnelShortData ["v"] = ChartType.bar ∧
    funnelValues funnelShortData "v" = [10, 5] ∧
    decreasingCount [10, 5] = 1 := by
  refine ⟨?_, by decide, by decide⟩
  simp only [inferChartType, funnelCheck_eq]
  decide

/-- C1 amended: when none of the earlier structural checks (Sankey, the two
treemap patterns, scatter, radar) match, the inferencer returns the funnel
kind exactly when there is one series field, the dataset has 2 to 15
records, and — over the positive values of that field — the count of
non-increasing consecutive pairs is at least 60% of the number of values
(not of the number of pairs). -/
theorem inferChartType_funnel_iff (data : List Record) (series : List String)
    (h1 : isSankeyData data = false) (h2 : isHierTreemap data = false)
    (h3 : isNameValueTreemap data = false)
    (h4 : scatterCheck data series = false)
    (h5 : radarCheck data series = false) :
    inferChartType data series = ChartType.funnel ↔
      (series.length = 1 ∧ 2 ≤ data.length ∧ data.length ≤ 15 ∧
        ((funnelValues data (series.getD 0 "")).length : ℚ) * (3 / 5) ≤
          (decreasingCount (funnelValues data (series.getD 0 "")) : ℚ)) := by
  unfold inferChartType funnelCheck
  simp only [h1, h2, h3, h4, h5, Bool.false_eq_true, if_false,
    decide_eq_true_eq]
  split_ifs with hf hp hc
  · exact iff_of_true rfl hf
  · exact iff_of_false (by simp) hf
  · exact iff_of_false (by simp) hf
  · exact iff_of_false (by simp) hf

/-- Witness for `inferChartType_funnel_iff` on a strictly decreasing
three-record single-series dataset. -/
theorem inferChartType_funnel_iff_witness :
    (isSankeyData funnelDemoData = false ∧
     isHierTreemap funnelDemoData = false ∧
     isNameValueTreemap funnelDemoData = false ∧
     scatterCheck funnelDemoData ["v"] = false ∧
     radarCheck funnelDemoData ["v"] = false) ∧
    (inferChartType funnelDemoData ["v"] = ChartType.funnel ↔
      (["v"].length = 1 ∧ 2 ≤ funnelDemoData.length ∧
        funnelDemoData.length ≤ 15 ∧
        ((funnelValues funnelDemoData (["v"].getD 0 "")).length : ℚ) * (3 / 5) ≤
          (decreasingCount (funnelValues funnelDemoData (["v"].getD 0 "")) : ℚ))) :=
  ⟨⟨by decide, by decide, by decide, by decide, by decide⟩,
   inferChartType_funnel_iff funnelDemoData ["v"] (by decide) (by decide)
     (by decide) (by decide) (by decide)⟩

/-! ## C2: bare-number reference strings need numeric data -/

/-- C2 counterexample: on the empty dataset, the string `"42"` — not a
percentage, not a statistic keyword, and parsing as the bare number 42 —
resolves to `undefined`, because `parseReferenceValue` bails out when the
extracted numeric values are empty before ever attempting the bare numeric
parse; the claim requires it to return 42. -/
theorem parseReferenceValue_bare_counterexample :
    parseReferenceValue (some (.str "42")) [] none = none ∧
    jsParseFloat "42" = some 42 ∧
    endsPercentChars "42".toList = false ∧
    isStatKeyword ("42".toList.map Char.toLower) = false ∧
    extractNumericValues [] none = [] := by decide

/-- C2 amended: the bare numeric parse succeeds only when the dataset
contributes at least one numeric value: for every dataset whose extracted
numeric values are non-empty and every string that is not a percentage, not
a statistic keyword, and parses as a bare number, `parseReferenceValue`
returns that parsed number.  (When the extracted values are empty, every
non-percentage string — even a bare numeral — resolves to `undefined`.) -/
theorem parseReferenceValue_bare_number (s : String) (q : ℚ)
    (data : List Record) (dataKey : Option String)
    (hnv : extractNumericValues data dataKey ≠ [])
    (hpct : endsPercentChars s.toList = false)
    (hkw : isStatKeyword (s.toList.map Char.toLower) = false)
    (hq : jsParseFloatChars s.toList = some q) :
    parseReferenceValue (some (.str s)) data dataKey = some q := by
  unfold parseReferenceValue
  simp only [isStatKeyword, Bool.or_eq_false_iff, decide_eq_false_iff_not]
    at hkw
  obtain ⟨⟨⟨⟨⟨⟨ha, hb⟩, hc⟩, hd⟩, he⟩, hf⟩, hg⟩ := hkw
  simp only [hpct, Bool.false_eq_true, if_false, hq]
  rw [if_neg hnv]
  simp only [Bool.or_eq_true, decide_eq_true_eq]
  rw [if_neg (by tauto), if_neg (by tauto), if_neg (by tauto),
    if_neg (by simpa using hg)]

/-- Witness for `parseReferenceValue_bare_number`: the string `"300"`
against a dataset with one numeric value resolves to `300`. -/
theorem parseReferenceValue_bare_number_witness :
    (extractNumericValues c2Data none ≠ [] ∧
     endsPercentChars "300".toList = false ∧
     isStatKeyword ("300".toList.map Char.toLower) = false ∧
     jsParseFloatChars "300".toList = some 300) ∧
    parseReferenceValue (some (.str "300")) c2Data none = some 300 :=
  ⟨⟨by decide, by decide, by decide, by decide⟩,
   parseReferenceValue_bare_number "300" 300 c2Data none (by decide)
     (by decide) (by decide) (by decide)⟩

/-! ## Association-list lemmas (JS object/Map semantics) -/

theorem alistLookup_upsert_self {β : Type} (m : List (String × β)) (k : String)
    (v : β) : alistLookup (alistUpsert m k v) k = some v := by
  induction m with
  | nil => simp [alistUpsert, alistLookup]
  | cons kv rest ih =>
    obtain ⟨k', v'⟩ := kv
    by_cases he : k' = k <;> simp [alistUpsert, alistLookup, he, ih]

theorem alistLookup_upsert_ne {β : Type} (m : List (String × β))
    (k k' : String) (v : β) (h : k' ≠ k) :
    alistLookup (alistUpsert m k v) k' = alistLookup m k' := by
  induction m with
  | nil => simp [alistUpsert, alistLookup, Ne.symm h]
  | cons kv rest ih =>
    obtain ⟨k'', v''⟩ := kv
    by_cases he : k'' = k <;>
      simp only [alistUpsert, he, if_true, if_false, alistLookup]
    · subst he
      simp [Ne.symm h]
    · by_cases he2 : k'' = k' <;> simp [he2, ih]

theorem mem_keys_upsert {β : Type} (m : List (String × β)) (k a : String)
    (v : β) :
    a ∈ (alistUpsert m k v).map Prod.fst ↔ a ∈ m.map Prod.fst ∨ a = k := by
  induction m with
  | nil => simp [alistUpsert]
  | cons kv rest ih =>
    obtain ⟨k', v'⟩ := kv
    by_cases he : k' = k <;> simp [alistUpsert, he, ih] <;> tauto

theorem nodupKeys_upsert {β : Type} {m : List (String × β)} (k : String)
    (v : β) (h : NodupKeys m) : NodupKeys (alistUpsert m k v) := by
  induction m with
  | nil => simp [NodupKeys, alistUpsert]
  | cons kv rest ih =>
    obtain ⟨k', v'⟩ := kv
    simp only [NodupKeys, List.map_cons, List.nodup_cons] at h
    by_cases he : k' = k
    · subst he
      simpa [NodupKeys, alistUpsert] using h
    · have h1 := ih h.2
      simp only [alistUpsert, he, if_false, NodupKeys, List.map_cons,
        List.nodup_cons]
      refine ⟨?_, h1⟩
      rw [mem_keys_upsert]
      push_neg
      exact ⟨h.1, he⟩

theorem lookup_none_upsert {β : Type} {m : List (String × β)} {k : String}
    (v : β) (h : alistLookup m k = none) : alistUpsert m k v = m ++ [(k, v)] := by
  induction m with
  | nil => rfl
  | cons kv rest ih =>
    obtain ⟨k', v'⟩ := kv
    simp only [alistLookup] at h
    by_cases he : k' = k
    · simp [he] at h
    · simp only [he, if_false] at h
      simp [alistUpsert, he, ih h]

theorem alistLookup_append_of_none {β : Type} {m1 : List (String × β)}
    (m2 : List (String × β)) (a : String) (h : alistLookup m1 a = none) :
    alistLookup (m1 ++ m2) a = alistLookup m2 a := by
  induction m1 with
  | nil => rfl
  | cons kv rest ih =>
    obtain ⟨k', v'⟩ := kv
    simp only [alistLookup] at h
    by_cases he : k' = a
    · simp [he] at h
    · simp only [he, if_false] at h
      simp only [List.cons_append, alistLookup, he, if_false]
      exact ih h

theorem objectAssign_disjoint {β : Type} (src : List (String × β)) :
    ∀ target : List (String × β),
      (∀ kv ∈ src, alistLookup target kv.1 = none) → NodupKeys src →
      objectAssign target src = target ++ src := by
  induction src with
  | nil =>
    intro t _ _
    simp [objectAssign]
  | cons kv rest ih =>
    intro t hd hn
    obtain ⟨k, v⟩ := kv
    have hupd : alistUpsert t k v = t ++ [(k, v)] :=
      lookup_none_upsert v (hd (k, v) (List.mem_cons_self _ _))
    simp only [NodupKeys, List.map_cons, List.nodup_cons] at hn
    have step : objectAssign t ((k, v) :: rest) =
        objectAssign (alistUpsert t k v) rest := rfl
    rw [step, hupd, ih (t ++ [(k, v)]) ?_ hn.2]
    · simp
    · intro kv2 hkv2
      have hne : k ≠ kv2.1 := by
        intro hEq
        exact hn.1 (hEq ▸ List.mem_map_of_mem Prod.fst hkv2)
      rw [alistLookup_append_of_none _ _ (hd kv2 (List.mem_cons_of_mem _ hkv2))]
      simp [alistLookup, hne]

theorem objectAssign_self {β : Type} {m : List (String × β)}
    (h : NodupKeys m) : objectAssign [] m = m := by
  simpa using objectAssign_disjoint m [] (fun kv _ => rfl) h

theorem nodupKeys_objectAssign {β : Type} (src : List (String × β)) :
    ∀ target : List (String × β), NodupKeys target →
      NodupKeys (objectAssign target src) := by
  induction src with
  | nil =>
    intro t h
    exact h
  | cons kv rest ih =>
    intro t h
    exact ih (alistUpsert t kv.1 kv.2) (nodupKeys_upsert _ _ h)

/-- The per-series map as seeded from the raw config
(`Object.assign({}, config.seriesConfig)` when present, `{}` otherwise) has
pairwise distinct keys. -/
theorem nodupKeys_userSeriesConfig (o : Option (List (String × SeriesType))) :
    NodupKeys (match o with
      | some sc => objectAssign [] sc
      | none => ([] : List (String × SeriesType))) := by
  rcases o with _ | sc
  · simp [NodupKeys]
  · exact nodupKeys_objectAssign sc [] (by simp [NodupKeys])

/-! ## Composed-chart default-fill lemmas -/

theorem lookup_foldl_fillStep_some (series : List String) (l : List String) :
    ∀ (m : List (String × SeriesType)) (a : String) (v : SeriesType),
      alistLookup m a = some v →
      alistLookup (l.foldl (fillStep series) m) a = some v := by
  induction l with
  | nil =>
    intro m a v h
    exact h
  | cons s rest ih =>
    intro m a v h
    have hstep : alistLookup (fillStep series m s) a = some v := by
      unfold fillStep
      by_cases hs : (alistLookup m s).isSome
      · rw [if_pos hs]
        exact h
      · rw [if_neg hs]
        have hne : a ≠ s := by
          intro hEq
          subst hEq
          rw [h] at hs
          simp at hs
        rw [alistLookup_upsert_ne _ _ _ _ hne]
        exact h
    exact ih (fillStep series m s) a v hstep

theorem lookup_foldl_fillStep_mem (series : List String) (l : List String) :
    ∀ (m : List (String × SeriesType)) (s : String), s ∈ l →
      (alistLookup (l.foldl (fillStep series) m) s).isSome := by
  induction l with
  | nil =>
    intro m s h
    simp at h
  | cons a rest ih =>
    intro m s hs
    rcases List.mem_cons.mp hs with hEq | hmem
    · subst hEq
      rcases hlook : alistLookup m s with _ | v
      · have hstep : alistLookup (fillStep series m s) s =
            some (if series.head? = some s then SeriesType.bar
              else SeriesType.line) := by
          unfold fillStep
          rw [hlook]
          simp [alistLookup_upsert_self]
        rw [List.foldl_cons, lookup_foldl_fillStep_some series rest _ _ _ hstep]
        rfl
      · have hstep : alistLookup (fillStep series m s) s = some v := by
          unfold fillStep
          rw [hlook]
          simpa using hlook
        rw [List.foldl_cons, lookup_foldl_fillStep_some series rest _ _ _ hstep]
        rfl
    · exact ih (fillStep series m a) s hmem

theorem foldl_fillStep_id (series : List String) (l : List String) :
    ∀ m : List (String × SeriesType),
      (∀ s ∈ l, (alistLookup m s).isSome) → l.foldl (fillStep series) m = m := by
  induction l with
  | nil =>
    intro m _
    rfl
  | cons a rest ih =>
    intro m h
    have ha : fillStep series m a = m := by
      unfold fillStep
      rw [if_pos (h a (List.mem_cons_self _ _))]
    rw [List.foldl_cons, ha]
    exact ih m (fun s hs => h s (List.mem_cons_of_mem _ hs))

theorem fillComposedDefaults_idem (series : List String)
    (m : List (String × SeriesType)) :
    fillComposedDefaults series (fillComposedDefaults series m) =
      fillComposedDefaults series m := by
  unfold fillComposedDefaults
  exact foldl_fillStep_id series series _
    (fun s hs => lookup_foldl_fillStep_mem series series m s hs)

theorem nodupKeys_foldl_fillStep (series : List String) (l : List String) :
    ∀ m : List (String × SeriesType), NodupKeys m →
      NodupKeys (l.foldl (fillStep series) m) := by
  induction l with
  | nil =>
    intro m h
    exact h
  | cons a rest ih =>
    intro m h
    refine ih (fillStep series m a) ?_
    unfold fillStep
    by_cases hs : (alistLookup m a).isSome
    · rw [if_pos hs]
      exact h
    · rw [if_neg hs]
      exact nodupKeys_upsert _ _ h

theorem lookup_foldl_fillStep_default (series : List String) (l : List String) :
    ∀ (m : List (String × SeriesType)) (s : String),
      alistLookup m s = none → s ∈ l →
      alistLookup (l.foldl (fillStep series) m) s =
        some (if series.head? = some s then SeriesType.bar
          else SeriesType.line) := by
  induction l with
  | nil =>
    intro m s _ h
    simp at h
  | cons a rest ih =>
    intro m s hm hs
    by_cases hEq : a = s
    · subst hEq
      have hstep : alistLookup (fillStep series m a) a =
          some (if series.head? = some a then SeriesType.bar
            else SeriesType.line) := by
        unfold fillStep
        rw [hm]
        simp [alistLookup_upsert_self]
      rw [List.foldl_cons, lookup_foldl_fillStep_some series rest _ _ _ hstep]
    · have hmem : s ∈ rest := by
        rcases List.mem_cons.mp hs with h1 | h1
        · exact absurd h1.symm hEq
        · exact h1
      have hm' : alistLookup (fillStep series m a) s = none := by
        unfold fillStep
        by_cases hsome : (alistLookup m a).isSome
        · rw [if_pos hsome]
          exact hm
        · rw [if_neg hsome, alistLookup_upsert_ne _ _ _ _ (fun hh => hEq hh.symm)]
          exact hm
      rw [List.foldl_cons]
      exact ih (fillStep series m a) s hm' hmem

/-- The per-series type map the normalizer produces always has pairwise
distinct keys. -/
theorem nodupKeys_resolveSeriesConfig (config : ChartConfig)
    (series : List String) (chartType : ChartType) :
    NodupKeys (resolveSeriesConfig config series chartType) := by
  have hseed : NodupKeys (seedSeriesConfig config) := by
    unfold seedSeriesConfig
    exact nodupKeys_userSeriesConfig config.seriesConfig
  unfold resolveSeriesConfig
  split_ifs with hc
  · exact nodupKeys_foldl_fillStep _ _ _ hseed
  · exact hseed

/-- Re-normalizing a canonical configuration that satisfies the invariants
the normalizer establishes reproduces it exactly. -/
theorem parseConfig_toRaw (p : ParsedChartConfig)
    (h1 : ¬ p.data.length = 0)
    (h2 : ¬ (availableKeysOf p.data).length = 0)
    (h3 : (availableKeysOf p.data).contains p.xAxis = true)
    (h4 : ¬ p.series.length = 0)
    (h5 : objectAssign [] p.seriesConfig = p.seriesConfig)
    (h6 : p.chartType = ChartType.composed →
      fillComposedDefaults p.series p.seriesConfig = p.seriesConfig)
    (h7 : p.seriesYAxisMap =
      resolveSeriesYAxisMap p.yAxis p.yAxis2 p.series) :
    parseConfig (toRawConfig p) = Except.ok p := by
  have hgd : getConfigData (toRawConfig p) = Except.ok p.data := rfl
  have hxa : selectXAxis (toRawConfig p) (availableKeysOf p.data) = p.xAxis := rfl
  have hss : selectSeries (toRawConfig p) p.data (availableKeysOf p.data)
      p.xAxis = p.series := by
    unfold selectSeries toRawConfig
    dsimp only
    simp only [Option.getD_some]
    rw [if_neg h4]
  have hct : resolveChartType (toRawConfig p) p.data p.series = p.chartType := rfl
  have hseed : seedSeriesConfig (toRawConfig p) = p.seriesConfig := h5
  have hrsc : resolveSeriesConfig (toRawConfig p) p.series p.chartType =
      p.seriesConfig := by
    unfold resolveSeriesConfig
    rw [hseed]
    by_cases hc : p.chartType = ChartType.composed
    · rw [if_pos hc]
      exact h6 hc
    · rw [if_neg hc]
  unfold parseConfig
  rw [hgd]
  dsimp only
  rw [if_neg h1, if_neg h2, hxa, if_neg (not_not_intro h3), hss, if_neg h4,
    hct, hrsc]
  dsimp only [toRawConfig]
  rw [← h7]
  simp only [Option.getD_some]

/-- C5: the normalizer is idempotent — feeding a successfully produced
canonical configuration back into `parseConfig` as raw input yields that
same canonical configuration (same chart kind, x-axis, series list,
per-series type map, dual-axis map, and pass-through fields). -/
theorem parseConfig_idempotent (cfg : ChartConfig) (p : ParsedChartConfig)
    (h : parseConfig cfg = Except.ok p) :
    parseConfig (toRawConfig p) = Except.ok p := by
  unfold parseConfig at h
  split at h
  · simp at h
  next data hgd =>
    split at h
    · simp at h
    next h0 =>
      split at h
      · simp at h
      next hk =>
        split at h
        · simp at h
        next hx =>
          split at h
          · simp at h
          next hs =>
            rw [Except.ok.injEq] at h
            subst h
            refine parseConfig_toRaw _ h0 hk (not_not.mp hx) hs ?_ ?_ rfl
            · exact objectAssign_self (nodupKeys_resolveSeriesConfig _ _ _)
            · intro hc
              dsimp only at hc ⊢
              unfold resolveSeriesConfig
              rw [if_pos hc]
              exact fillComposedDefaults_idem _ _

/-- Witness for `parseConfig_idempotent` on a minimal line-chart
configuration. -/
theorem parseConfig_idempotent_witness :
    parseConfig c5Config = Except.ok c5Parsed ∧
    parseConfig (toRawConfig c5Parsed) = Except.ok c5Parsed :=
  ⟨by rfl, parseConfig_idempotent c5Config c5Parsed (by rfl)⟩

/-! ## C6: the per-series type map and the composed kind -/

/-- C6 counterexample: a raw configuration declaring the single-kind bar
chart together with an explicit `seriesConfig` normalizes to a canonical
configuration whose resolved kind is bar yet which carries a non-empty
per-series type map — the user-supplied entries are copied through
regardless of the resolved kind, so a single-kind canonical configuration
can carry a per-series mapping. -/
theorem parseConfig_seriesConfig_leak_counterexample :
    (parseConfig c6Config).map (fun p => (p.chartType, p.seriesConfig)) =
      Except.ok (ChartType.bar, [("sales", SeriesType.line)]) := by rfl

/-- C6 amended: the normalizer fills per-series *defaults* when and only
when the resolved kind is composed (first selected series `"bar"`, every
later one `"line"`, for series without a user-supplied entry), but a
user-supplied map is copied through for every kind; consequently a
single-kind canonical configuration carries exactly the user-seeded map —
empty when the raw configuration supplied none — and a composed one with
no user map carries exactly the defaults. -/
theorem parseConfig_seriesConfig_spec (cfg : ChartConfig)
    (p : ParsedChartConfig) (h : parseConfig cfg = Except.ok p) :
    p.seriesConfig =
      (if p.chartType = ChartType.composed then
        fillComposedDefaults p.series (seedSeriesConfig cfg)
      else seedSeriesConfig cfg) ∧
    (cfg.seriesConfig = none → p.chartType ≠ ChartType.composed →
      p.seriesConfig = []) ∧
    (cfg.seriesConfig = none → p.chartType = ChartType.composed →
      ∀ s ∈ p.series, alistLookup p.seriesConfig s =
        some (if p.series.head? = some s then SeriesType.bar
          else SeriesType.line)) := by
  unfold parseConfig at h
  split at h
  · simp at h
  next data hgd =>
    split at h
    · simp at h
    next h0 =>
      split at h
      · simp at h
      next hk =>
        split at h
        · simp at h
        next hx =>
          split at h
          · simp at h
          next hs =>
            rw [Except.ok.injEq] at h
            subst h
            refine ⟨rfl, ?_, ?_⟩
            · intro hnone hnc
              dsimp only at hnc ⊢
              unfold resolveSeriesConfig seedSeriesConfig
              rw [hnone, if_neg hnc]
            · intro hnone hc s hsmem
              dsimp only at hc hsmem ⊢
              unfold resolveSeriesConfig seedSeriesConfig
              rw [hnone, if_pos hc]
              exact lookup_foldl_fillStep_default _ _ _ _ rfl hsmem

/-- Witness for `parseConfig_seriesConfig_spec` on a composed chart with no
user-supplied map: the defaults are the first series as bar, the second as
line. -/
theorem parseConfig_seriesConfig_spec_witness :
    parseConfig c6DemoConfig = Except.ok c6DemoParsed ∧
    (∀ s ∈ c6DemoParsed.series, alistLookup c6DemoParsed.seriesConfig s =
      some (if c6DemoParsed.series.head? = some s then SeriesType.bar
        else SeriesType.line)) :=
  ⟨by rfl,
   (parseConfig_seriesConfig_spec c6DemoConfig c6DemoParsed (by rfl)).2.2
     rfl rfl⟩

end ChartViz
